import Mathlib

/-!
Shallow embedding of the backend device-discovery and log-correlation engine
of ssh-dashboard (src/backend/server.js), and proofs checking the claims of
the natural-language specification against it.

Conventions of the embedding:
* JS `Date` values are epoch milliseconds (`Int`); an Invalid Date (NaN time)
  is `none` in an `Option Int`, since every JS `<`/`>` comparison with NaN is
  false.
* The filesystem is an explicit record of the read/stat operations the scanner
  performs; `none` from an operation models a thrown filesystem error.
* `Math.random`-synthesised IP addresses are represented by `none` in an
  `Option String` (the value is cosmetic and never read by the core logic).
-/

namespace SshDashboard

/-- Occurrence of `sub` as a contiguous run inside `s`. -/
def listContains (s sub : List Char) : Bool :=
  match s with
  | [] => sub.isEmpty
  | _ :: t => sub.isPrefixOf s || listContains t sub

/-- JS `haystack.includes(needle)`: substring containment. -/
def jsIncludes (s sub : String) : Bool := listContains s.data sub.data

/-- JS `toLowerCase` (ASCII range, which is all the comparisons use). -/
def jsToLower (s : String) : String := String.mk (s.data.map Char.toLower)

/-- JS `\w` character class (ASCII word characters). -/
def isWordChar (c : Char) : Bool := c.isAlphanum || c == '_'

/-- JS `\s` character class (restricted to the ASCII whitespace characters,
which are the only ones occurring in the log formats at issue). -/
def isSpaceChar (c : Char) : Bool :=
  c == ' ' || c == '\t' || c == '\n' || c == '\r' || c == '\x0b' || c == '\x0c'

/-- `extractLogLevel` from src/backend/server.js lines 685-697: severity of a
log line by case-insensitive substring matching. -/
def extractLogLevel (logLine : String) : String :=
  let line := (jsToLower logLine)
  if jsIncludes line "error" || jsIncludes line "err" ||
     jsIncludes line "failed" || jsIncludes line "denied" then
    "error"
  else if jsIncludes line "warning" || jsIncludes line "warn" then
    "warning"
  else if jsIncludes line "info" || jsIncludes line "notice" then
    "info"
  else
    "info"

/-- The classification rule as the specification states it (§4.1): error
tokens, else warning tokens, else default info — with no separate info/notice
branch.  Used to compare the code's classifier against the spec's rule. -/
def specLogLevel (logLine : String) : String :=
  let line := (jsToLower logLine)
  if jsIncludes line "error" || jsIncludes line "err" ||
     jsIncludes line "failed" || jsIncludes line "denied" then
    "error"
  else if jsIncludes line "warning" || jsIncludes line "warn" then
    "warning"
  else
    "info"

/-! ## Timestamp extraction (server.js lines 291-306 and 668-683)

The two regular expressions
`^(\w{3}\s+\d{1,2}\s+\d{2}:\d{2}:\d{2})` and
`^(\d{4}-\d{2}-\d{2}\s+\d{2}:\d{2}:\d{2})`
are anchored matchers; on a match, the matched text is handed to the external
`moment` library with the format list `['MMM DD HH:mm:ss', 'YYYY-MM-DD HH:mm:ss']`
and `.toDate()` is returned; with no match the current time is returned. -/

/-- `\d{2}:\d{2}:\d{2}` immediately at the head of the character list; returns
the eight matched characters.  No backtracking is possible inside this piece of
the pattern, so a plain shape check is exact. -/
def matchHMS : List Char → Option (List Char)
  | a :: b :: c :: d :: e :: f :: g :: h :: _ =>
    if a.isDigit && b.isDigit && c == ':' && d.isDigit && e.isDigit &&
        f == ':' && g.isDigit && h.isDigit then
      some [a, b, c, d, e, f, g, h]
    else none
  | _ => none

/-- Anchored match of `^(\w{3}\s+\d{1,2}\s+\d{2}:\d{2}:\d{2})`, returning the
matched text.  `\s+` is greedy with no profitable backtracking; `\d{1,2}`
followed by `\s+` succeeds exactly when the maximal digit run has length 1 or 2
and is followed by whitespace. -/
def matchSyslogTs (line : String) : Option String :=
  match line.data with
  | c1 :: c2 :: c3 :: rest =>
    if isWordChar c1 && isWordChar c2 && isWordChar c3 then
      let (sp1, r1) := rest.span isSpaceChar
      if sp1.isEmpty then none else
      let (ds, r2) := r1.span Char.isDigit
      if ds.length == 0 || 2 < ds.length then none else
      let (sp2, r3) := r2.span isSpaceChar
      if sp2.isEmpty then none else
      match matchHMS r3 with
      | some t => some (String.mk (c1 :: c2 :: c3 :: (sp1 ++ ds ++ sp2 ++ t)))
      | none => none
    else none
  | _ => none

/-- Anchored match of `^(\d{4}-\d{2}-\d{2}\s+\d{2}:\d{2}:\d{2})`, returning the
matched text. -/
def matchIsoTs (line : String) : Option String :=
  match line.data with
  | y1 :: y2 :: y3 :: y4 :: h1 :: m1 :: m2 :: h2 :: d1 :: d2 :: rest =>
    if y1.isDigit && y2.isDigit && y3.isDigit && y4.isDigit && h1 == '-' &&
        m1.isDigit && m2.isDigit && h2 == '-' && d1.isDigit && d2.isDigit then
      let (sp, r1) := rest.span isSpaceChar
      if sp.isEmpty then none else
      match matchHMS r1 with
      | some t =>
        some (String.mk (y1 :: y2 :: y3 :: y4 :: h1 :: m1 :: m2 :: h2 :: d1 :: d2 :: (sp ++ t)))
      | none => none
    else none
  | _ => none

/-- A calendar date as the `moment` library understands the matched text: the
syslog format carries no year (moment defaults it to the current year). -/
inductive CalDate
  | syslog (month day hour minute second : Nat)
  | iso (year month day hour minute second : Nat)
deriving DecidableEq, Repr

/-- Analysis-time environment: the wall clock (`now`, epoch milliseconds) and
the external `moment`/system conversion from a parsed calendar date to epoch
milliseconds (absorbing moment's current-year default for the syslog format
and the local time zone). -/
structure TimeModel where
  now : Int
  calToMillis : CalDate → Int

/-- Numeric value of a digit run. -/
def natFromDigits (ds : List Char) : Nat :=
  ds.foldl (fun n c => n * 10 + (c.toNat - '0'.toNat)) 0

/-- English three-letter month abbreviations recognised by moment's `MMM`
token (matched case-insensitively), numbered 1-12. -/
def monthFromAbbrev (s : String) : Option Nat :=
  List.lookup s [("jan", 1), ("feb", 2), ("mar", 3), ("apr", 4), ("may", 5),
    ("jun", 6), ("jul", 7), ("aug", 8), ("sep", 9), ("oct", 10), ("nov", 11), ("dec", 12)]

/-- moment's overflow check for a time-of-day (hour 24 is tolerated only as
exactly 24:00:00). -/
def validTime (hh mm ss : Nat) : Bool :=
  (hh ≤ 23 || (hh == 24 && mm == 0 && ss == 0)) && mm ≤ 59 && ss ≤ 59

/-- Field decomposition of a string of the exact shape produced by
`matchSyslogTs`: month word, day digits, HH:MM:SS; `none` if the shape or the
month abbreviation does not fit. -/
def parseSyslogFields (s : String) : Option (Nat × Nat × Nat × Nat × Nat) :=
  match s.data with
  | c1 :: c2 :: c3 :: rest =>
    match monthFromAbbrev (String.mk [c1.toLower, c2.toLower, c3.toLower]) with
    | none => none
    | some mon =>
      let (sp1, r1) := rest.span isSpaceChar
      if sp1.isEmpty then none else
      let (ds, r2) := r1.span Char.isDigit
      if ds.length == 0 || 2 < ds.length then none else
      let (sp2, r3) := r2.span isSpaceChar
      if sp2.isEmpty then none else
      match r3 with
      | [a, b, c, d, e, f, g, h] =>
        if a.isDigit && b.isDigit && c == ':' && d.isDigit && e.isDigit &&
            f == ':' && g.isDigit && h.isDigit then
          some (mon, natFromDigits ds, natFromDigits [a, b],
            natFromDigits [d, e], natFromDigits [g, h])
        else none
      | _ => none
  | _ => none

/-- Field decomposition of a string of the exact shape produced by
`matchIsoTs`. -/
def parseIsoFields (s : String) : Option (Nat × Nat × Nat × Nat × Nat × Nat) :=
  match s.data with
  | y1 :: y2 :: y3 :: y4 :: h1 :: m1 :: m2 :: h2 :: d1 :: d2 :: rest =>
    if y1.isDigit && y2.isDigit && y3.isDigit && y4.isDigit && h1 == '-' &&
        m1.isDigit && m2.isDigit && h2 == '-' && d1.isDigit && d2.isDigit then
      let (sp, r1) := rest.span isSpaceChar
      if sp.isEmpty then none else
      match r1 with
      | [a, b, c, d, e, f, g, h] =>
        if a.isDigit && b.isDigit && c == ':' && d.isDigit && e.isDigit &&
            f == ':' && g.isDigit && h.isDigit then
          some (natFromDigits [y1, y2, y3, y4], natFromDigits [m1, m2],
            natFromDigits [d1, d2], natFromDigits [a, b], natFromDigits [d, e],
            natFromDigits [g, h])
        else none
      | _ => none
    else none
  | _ => none

/-- Model of the external call
`moment(text, ['MMM DD HH:mm:ss', 'YYYY-MM-DD HH:mm:ss']).toDate()` on the
strings matched by the two timestamp patterns: each format is tried against
the text; an unrecognised month name or an out-of-range field yields an
invalid date (`none`; moment's day-of-month check against the month length is
abstracted to `day ≤ 31`, a difference visible only on inputs such as
"Feb 30" which no theorem below touches). -/
def momentParse (tm : TimeModel) (s : String) : Option Int :=
  match parseSyslogFields s with
  | some (mon, day, hh, mi, ss) =>
    if 1 ≤ day && day ≤ 31 && validTime hh mi ss then
      some (tm.calToMillis (CalDate.syslog mon day hh mi ss))
    else none
  | none =>
    match parseIsoFields s with
    | some (y, mo, d, hh, mi, ss) =>
      if 1 ≤ mo && mo ≤ 12 && 1 ≤ d && d ≤ 31 && validTime hh mi ss then
        some (tm.calToMillis (CalDate.iso y mo d hh mi ss))
      else none
    | none => none

/-- `extractTimestamp` from server.js lines 291-306 (identical helper at lines
668-683): try the two anchored patterns in order; on a match return the moment
parse of the matched text (`none` = Invalid Date when the parse fails); with
no match fall back to the current time. -/
def extractTimestamp (tm : TimeModel) (logLine : String) : Option Int :=
  match matchSyslogTs logLine with
  | some s => momentParse tm s
  | none =>
    match matchIsoTs logLine with
    | some s => momentParse tm s
    | none => some tm.now

/-- `determineDeviceStatus` from server.js lines 317-326.  The JS float test
`hoursAgo < 1` on the integer-valued millisecond difference is exactly
`timeDiff < 3600000` (and `hoursAgo < 24` is `timeDiff < 86400000`). -/
def determineDeviceStatus (now : Int) (lastSeen : Option Int) : String :=
  match lastSeen with
  | none => "offline"
  | some t =>
    let timeDiff := now - t
    if timeDiff < 3600000 then "online"
    else if timeDiff < 86400000 then "warning"
    else "offline"

/-! ## Session correlation and per-device log analysis
(server.js `DeviceScanner.analyzeDeviceLogs`, lines 176-275) -/

/-- Try `/sshd\[(\d+)\]/` at the current position: literal `sshd[`, a maximal
nonempty digit run (no shorter run can be followed by `]`), then `]`. -/
def sshdPidAt : List Char → Option String
  | 's' :: 's' :: 'h' :: 'd' :: '[' :: r =>
    let (ds, r2) := r.span Char.isDigit
    if ds.isEmpty then none
    else
      match r2 with
      | ']' :: _ => some (String.mk ds)
      | _ => none
  | _ => none

/-- JS `line.match(/sshd\[(\d+)\]/)`: first occurrence left to right, captured
digit group. -/
def sshdSessionId (line : String) : Option String := go line.data
where
  go : List Char → Option String
    | [] => none
    | c :: r =>
      match sshdPidAt (c :: r) with
      | some pid => some pid
      | none => go r

/-- Try `/for (\w+) from ([\d.]+)/` at the current position.  Both `\w+` and
`[\d.]+` are maximal runs; no backtracking can shorten `\w+` because the
following literal starts with a space, which is not a word character. -/
def userSourceAt : List Char → Option (String × String)
  | 'f' :: 'o' :: 'r' :: ' ' :: r =>
    let (w, r2) := r.span isWordChar
    if w.isEmpty then none
    else
      match r2 with
      | ' ' :: 'f' :: 'r' :: 'o' :: 'm' :: ' ' :: r3 =>
        let (ip, _) := r3.span (fun c => c.isDigit || c == '.')
        if ip.isEmpty then none else some (String.mk w, String.mk ip)
      | _ => none
  | _ => none

/-- JS `line.match(/for (\w+) from ([\d.]+)/)`: first occurrence, the two
captured groups. -/
def userSourceMatch (line : String) : Option (String × String) := go line.data
where
  go : List Char → Option (String × String)
    | [] => none
    | c :: r =>
      match userSourceAt (c :: r) with
      | some uv => some uv
      | none => go r

/-- The `device.stats` object. -/
structure LogStats where
  totalLogs : Nat
  errorCount : Nat
  warningCount : Nat
  sshConnections : Nat
  failedLogins : Nat
deriving DecidableEq, Repr

/-- A correlated SSH session record.  `startTime`/inner `endTime` are epoch
milliseconds with `none` for an Invalid Date; the outer `Option` on `endTime`
models the field being absent until the session is closed. -/
structure Session where
  id : String
  username : String
  sourceIP : String
  startTime : Option Int
  status : String
  endTime : Option (Option Int)
  device : String
deriving DecidableEq, Repr

/-- One entry of `device.logFiles`; the JS absolute path is represented by the
(device folder, file name) pair it is joined from. -/
structure LogFileDescriptor where
  name : String
  folder : String
  size : Nat
  modified : Int
deriving DecidableEq, Repr

/-- A device snapshot.  `ip = none` stands for the pseudo-random synthesised
address (cosmetic, never read by the core logic). -/
structure Device where
  id : String
  name : String
  ip : Option String
  status : String
  lastSeen : Option Int
  logFiles : List LogFileDescriptor
  stats : LogStats
  activeSessions : List Session
deriving DecidableEq, Repr

/-- JS `Map.get`. -/
def mapGet {α : Type} (m : List (String × α)) (k : String) : Option α :=
  match m with
  | [] => none
  | (k', v') :: t => if k' == k then some v' else mapGet t k

/-- JS `Map.set`: replace in place when the key exists (keeping its insertion
position), append otherwise. -/
def mapSet {α : Type} (m : List (String × α)) (k : String) (v : α) :
    List (String × α) :=
  match m with
  | [] => [(k, v)]
  | (k', v') :: t => if k' == k then (k, v) :: t else (k', v') :: mapSet t k v

/-- Result of a `fs.stat` call on a directory entry. -/
structure FileStat where
  isFile : Bool
  size : Nat
  mtime : Int
deriving DecidableEq, Repr

/-- The filesystem as the scanner observes it during one pass: each field is
one of the fs operations the code performs, with `none` modelling a thrown
error.  `rootEntries` is `fs.readdir(logDirectory)` (after the sample-structure
bootstrap when the root was absent); `statRoot` is `fs.stat` on an immediate
child of the root; `readDeviceDir` is `fs.readdir` of a device directory;
`statFile` / `readFile` take the device folder and the file name. -/
structure FS where
  rootEntries : Option (List String)
  statRoot : String → Option Bool
  readDeviceDir : String → Option (List String)
  statFile : String → String → Option FileStat
  readFile : String → String → Option String

/-- JS `>` on `Date` values: numeric comparison, false whenever either side is
an Invalid Date (NaN). -/
def jsDateGt (d : Option Int) (x : Int) : Bool :=
  match d with
  | none => false
  | some t => x < t

/-- The mutable locals of one `analyzeDeviceLogs` pass that the per-line loop
touches: four counters and the `sessions` map (insertion-ordered, keyed by
extracted session id).  `totalLines` is kept separately because the line loop
never updates it — only the per-file preamble does. -/
structure CorrState where
  errorCount : Nat
  warningCount : Nat
  sshConnections : Nat
  failedLogins : Nat
  sessions : List (String × Session)
deriving DecidableEq, Repr

def CorrState.init : CorrState := ⟨0, 0, 0, 0, []⟩

/-- The per-line body of `analyzeDeviceLogs` (server.js lines 195-246). -/
def processLine (tm : TimeModel) (deviceId : String) (st : CorrState)
    (line : String) : CorrState :=
  let lowerLine := jsToLower line
  let st :=
    if jsIncludes lowerLine "error" || jsIncludes lowerLine "failed" ||
        jsIncludes lowerLine "denied" then
      { st with errorCount := st.errorCount + 1 }
    else st
  let st :=
    if jsIncludes lowerLine "warning" || jsIncludes lowerLine "warn" then
      { st with warningCount := st.warningCount + 1 }
    else st
  if jsIncludes lowerLine "sshd" then
    match sshdSessionId line with
    | none => st
    | some sessionId =>
      let st :=
        if jsIncludes lowerLine "accepted publickey" ||
            jsIncludes lowerLine "accepted password" then
          match userSourceMatch line with
          | some (username, sourceIP) =>
            { st with
              sessions := mapSet st.sessions sessionId
                { id := sessionId, username := username, sourceIP := sourceIP,
                  startTime := extractTimestamp tm line, status := "active",
                  endTime := none, device := deviceId },
              sshConnections := st.sshConnections + 1 }
          | none => st
        else st
      let st :=
        if jsIncludes lowerLine "session closed" ||
            jsIncludes lowerLine "connection closed" then
          match mapGet st.sessions sessionId with
          | some s =>
            { st with
              sessions := mapSet st.sessions sessionId
                { s with endTime := some (extractTimestamp tm line),
                         status := "closed" } }
          | none => st
        else st
      if jsIncludes lowerLine "failed" || jsIncludes lowerLine "invalid" ||
          jsIncludes lowerLine "authentication failure" then
        { st with failedLogins := st.failedLogins + 1 }
      else st
  else st

/-- Split a character list at every occurrence of `sep`; like JS
`split(sep)` this keeps empty segments, and yields one empty segment for
empty input. -/
def splitChar (sep : Char) : List Char → List (List Char)
  | [] => [[]]
  | c :: t =>
    if c == sep then [] :: splitChar sep t
    else
      match splitChar sep t with
      | [] => [[c]]
      | h :: r => (c :: h) :: r

/-- JS `content.split('\n')` (keeps a trailing empty segment, and yields one
empty line for empty content). -/
def splitLines (content : String) : List String :=
  (splitChar '\n' content.data).map String.mk

/-- JS `xs.slice(-n)` for the positive `n` the config admits (`maxLogLines`
defaults to 1000 and a falsy parse result is replaced by the default). -/
def lastN {α : Type} (n : Nat) (xs : List α) : List α := xs.drop (xs.length - n)

/-- The per-file body of `analyzeDeviceLogs` (server.js lines 188-250): a read
failure skips the file; otherwise the full line count is added to
`totalLines` (before any truncation) and only the last `maxLogLines` lines
are classified.  The accumulator pairs the `totalLines` counter with the
line-loop state. -/
def processFile (tm : TimeModel) (maxLogLines : Nat) (deviceId : String)
    (acc : Nat × CorrState) (fileContent : Option String) : Nat × CorrState :=
  match fileContent with
  | none => acc
  | some content =>
    let lines := splitLines content
    (acc.1 + lines.length, (lastN maxLogLines lines).foldl (processLine tm deviceId) acc.2)

/-- The whole file/line fold of one `analyzeDeviceLogs` pass. -/
def analyzeLogsFold (tm : TimeModel) (fs : FS) (maxLogLines : Nat)
    (device : Device) : Nat × CorrState :=
  device.logFiles.foldl
    (fun acc f => processFile tm maxLogLines device.id acc (fs.readFile f.folder f.name))
    (0, CorrState.init)

/-- `DeviceScanner.analyzeDeviceLogs` (server.js lines 176-275): fresh
counters and session map, fold over the device's log files, then keep as
active sessions exactly the records still `active` whose start time compares
greater than one hour before now; replace `stats` and `activeSessions`. -/
def analyzeDeviceLogs (tm : TimeModel) (fs : FS) (maxLogLines : Nat)
    (device : Device) : Device :=
  let final := analyzeLogsFold tm fs maxLogLines device
  let oneHourAgo := tm.now - 3600000
  let activeSessions := (final.2.sessions.map Prod.snd).filter
    (fun s => s.status == "active" && jsDateGt s.startTime oneHourAgo)
  { device with
    stats := ⟨final.1, final.2.errorCount, final.2.warningCount,
      final.2.sshConnections, final.2.failedLogins⟩,
    activeSessions := activeSessions }

/-- The final session map of one `analyzeDeviceLogs` pass (the correlator's
output before the active-session filter). -/
def finalSessions (tm : TimeModel) (fs : FS) (maxLogLines : Nat)
    (device : Device) : List (String × Session) :=
  (analyzeLogsFold tm fs maxLogLines device).2.sessions

/-! ## Device analysis and scanning
(server.js `analyzeDevice` lines 122-174, `scanDevices` lines 71-120) -/

def supportedLogFiles : List String :=
  ["auth.log", "syslog", "secure", "messages", "daemon.log", "kern.log"]

/-- Node `path.extname` for slash-free names: the suffix from the last dot,
empty when there is no dot or the dot is the leading character. -/
def extname (filename : String) : String :=
  let rcs := filename.data.reverse
  let pre := rcs.takeWhile (fun c => c != '.')
  match rcs.drop pre.length with
  | [] => ""
  | [_] => ""
  | _ :: _ :: _ => String.mk ('.' :: pre.reverse)

/-- `/\.(log|txt)$/i` as a truthiness test. -/
def endsWithLogOrTxt (filename : String) : Bool :=
  let l := (jsToLower filename).data
  ".log".data.isSuffixOf l || ".txt".data.isSuffixOf l

/-- `DeviceScanner.isLogFile` (server.js lines 310-315). -/
def isLogFile (filename : String) : Bool :=
  let ext := jsToLower (extname filename)
  ext == ".log" ||
    supportedLogFiles.any (fun t => jsIncludes filename t) ||
    endsWithLogOrTxt filename

/-- Uppercase the word characters sitting at a `\b` boundary (the replacement
pass of `/\b\w/g`); the flag records whether the previous character was a
non-word character (true at the start of the string). -/
def upperAtBoundaries : Bool → List Char → List Char
  | _, [] => []
  | prevNonWord, c :: t =>
    (if prevNonWord && isWordChar c then c.toUpper else c) ::
      upperAtBoundaries (!isWordChar c) t

/-- `DeviceScanner.formatDeviceName` (server.js lines 277-282). -/
def formatDeviceName (folderName : String) : String :=
  String.mk (upperAtBoundaries true
    (folderName.data.map (fun c => if c == '-' || c == '_' then ' ' else c)))

/-- Digit prefixes of length 3, 2, 1 — the greedy backtracking order of
`\d{1,3}` — each with the remaining characters. -/
def octetCandidates (cs : List Char) : List (List Char × List Char) :=
  (match cs with
   | a :: b :: c :: r =>
     if a.isDigit && b.isDigit && c.isDigit then [([a, b, c], r)] else []
   | _ => []) ++
  (match cs with
   | a :: b :: r => if a.isDigit && b.isDigit then [([a, b], r)] else []
   | _ => []) ++
  (match cs with
   | a :: r => if a.isDigit then [([a], r)] else []
   | _ => [])

/-- Try `/(\d{1,3}\.\d{1,3}\.\d{1,3}\.\d{1,3})/` at the current position, with
the regex engine's greedy-then-backtrack order on each octet. -/
def ipAt (cs : List Char) : Option String :=
  (octetCandidates cs).findSome? fun p1 =>
    match p1.2 with
    | '.' :: r1 =>
      (octetCandidates r1).findSome? fun p2 =>
        match p2.2 with
        | '.' :: r2 =>
          (octetCandidates r2).findSome? fun p3 =>
            match p3.2 with
            | '.' :: r3 =>
              match octetCandidates r3 with
              | p4 :: _ =>
                some (String.mk (p1.1 ++ '.' :: p2.1 ++ '.' :: p3.1 ++ '.' :: p4.1))
              | [] => none
            | _ => none
        | _ => none
    | _ => none

/-- `DeviceScanner.extractIPFromName` (server.js lines 284-289); `none` stands
for the synthesised pseudo-random address taken when no IPv4-shaped substring
occurs in the folder name. -/
def extractIPFromName (folderName : String) : Option String := go folderName.data
where
  go : List Char → Option String
    | [] => none
    | c :: r =>
      match ipAt (c :: r) with
      | some ip => some ip
      | none => go r

/-- The log-file discovery loop of `analyzeDevice` (server.js lines 142-160):
stat each entry (a thrown stat aborts the device via the surrounding catch),
keep regular files passing `isLogFile`, and track the maximal modification
time as `lastSeen`. -/
def buildLogFiles (fs : FS) (folderName : String) :
    List String → List LogFileDescriptor → Option Int →
      Option (List LogFileDescriptor × Option Int)
  | [], acc, lastSeen => some (acc, lastSeen)
  | file :: rest, acc, lastSeen =>
    match fs.statFile folderName file with
    | none => none
    | some st =>
      if st.isFile && isLogFile file then
        let lastSeen' :=
          match lastSeen with
          | none => some st.mtime
          | some t => if t < st.mtime then some st.mtime else some t
        buildLogFiles fs folderName rest
          (acc ++ [⟨file, folderName, st.size, st.mtime⟩]) lastSeen'
      else
        buildLogFiles fs folderName rest acc lastSeen

/-- `DeviceScanner.analyzeDevice` (server.js lines 122-174): `none` models the
catch-all returning null (directory read or any file stat threw). -/
def analyzeDevice (tm : TimeModel) (fs : FS) (maxLogLines : Nat)
    (folderName : String) : Option Device :=
  match fs.readDeviceDir folderName with
  | none => none
  | some files =>
    match buildLogFiles fs folderName files [] none with
    | none => none
    | some (logFiles, lastSeen) =>
      let device : Device :=
        { id := folderName, name := formatDeviceName folderName,
          ip := extractIPFromName folderName, status := "unknown",
          lastSeen := lastSeen, logFiles := logFiles,
          stats := ⟨0, 0, 0, 0, 0⟩, activeSessions := [] }
      let device := { device with status := determineDeviceStatus tm.now lastSeen }
      some (analyzeDeviceLogs tm fs maxLogLines device)

/-- The folder loop of `scanDevices` (server.js lines 90-108).  The
`fs.stat(devicePath)` at line 95 sits inside the scan's outer try, not inside
any per-device handler, so its failure aborts the whole scan
(`Except.error`). -/
def scanFold (tm : TimeModel) (fs : FS) (maxLogLines : Nat) :
    List String → List (String × Device) → Except Unit (List (String × Device))
  | [], acc => Except.ok acc
  | folder :: rest, acc =>
    match fs.statRoot folder with
    | none => Except.error ()
    | some isDir =>
      if isDir then
        match analyzeDevice tm fs maxLogLines folder with
        | some device => scanFold tm fs maxLogLines rest (mapSet acc device.id device)
        | none => scanFold tm fs maxLogLines rest acc
      else scanFold tm fs maxLogLines rest acc

/-- The registry (`devices` map) a scan builds, or the error it throws. -/
def scanDevicesBuild (tm : TimeModel) (fs : FS) (maxLogLines : Nat) :
    Except Unit (List (String × Device)) :=
  match fs.rootEntries with
  | none => Except.error ()
  | some folders => scanFold tm fs maxLogLines folders []

/-- The scanner's mutable state: the `isScanning` guard flag and the
module-level `deviceCache` registry. -/
structure ScannerState where
  isScanning : Bool
  deviceCache : List (String × Device)
deriving DecidableEq, Repr

/-- `DeviceScanner.scanDevices` (server.js lines 71-120) as a state
transformer: on success the registry is replaced wholesale by the newly built
map (`deviceCache = devices` at line 110) and the device list is returned; on
failure the error is rethrown and the registry is untouched; the `finally`
clause clears `isScanning` in both cases. -/
def scanDevices (tm : TimeModel) (fs : FS) (maxLogLines : Nat)
    (st : ScannerState) : Except Unit (List Device) × ScannerState :=
  match scanDevicesBuild tm fs maxLogLines with
  | Except.ok reg =>
    (Except.ok (reg.map Prod.snd), { isScanning := false, deviceCache := reg })
  | Except.error e => (Except.error e, { st with isScanning := false })

/-- Response of `POST /api/devices/refresh`: 200 with the device list, 409
scan-in-progress, or 500 from the catch block. -/
inductive RefreshResponse
  | ok (devices : List Device)
  | scanInProgress
  | serverError
deriving DecidableEq, Repr

/-- The `POST /api/devices/refresh` handler (server.js lines 594-621). -/
def refreshRoute (tm : TimeModel) (fs : FS) (maxLogLines : Nat)
    (st : ScannerState) : RefreshResponse × ScannerState :=
  if st.isScanning then (RefreshResponse.scanInProgress, st)
  else
    match (scanDevices tm fs maxLogLines st).1 with
    | Except.ok ds => (RefreshResponse.ok ds, (scanDevices tm fs maxLogLines st).2)
    | Except.error _ => (RefreshResponse.serverError, (scanDevices tm fs maxLogLines st).2)

/-- `DeviceScanner.handleFileChange` (server.js lines 411-424): the owning
device id is the first segment of the changed path relative to the root; an
unknown id leaves the registry alone, a known one has only its log-analysis
portion re-run and its entry replaced in place. -/
def handleFileChange (tm : TimeModel) (fs : FS) (maxLogLines : Nat)
    (cache : List (String × Device)) (relSegments : List String) :
    List (String × Device) :=
  let deviceId := relSegments.headD ""
  match mapGet cache deviceId with
  | none => cache
  | some device => mapSet cache deviceId (analyzeDeviceLogs tm fs maxLogLines device)

/-! ## Concrete scenario inputs shared by the theorems below -/

/-- The spec's correlator scenario: a successful public-key login with
bracketed id 1234. -/
def acceptLine : String :=
  "Jan 12 03:04:05 srv sshd[1234]: Accepted publickey for admin from 192.168.1.100 port 52345 ssh2"

/-- A later session-closed line with the same bracketed id. -/
def closeLine : String :=
  "Jan 12 03:09:05 srv sshd[1234]: pam_unix(sshd:session): session closed for user admin"

/-- A device snapshot holding one discovered log file, as a scan builds it
before log analysis. -/
def sampleDevice : Device :=
  { id := "srv-a", name := "Srv A", ip := none, status := "online",
    lastSeen := some 0, logFiles := [⟨"auth.log", "srv-a", 10, 0⟩],
    stats := ⟨0, 0, 0, 0, 0⟩, activeSessions := [] }

/-- Filesystem for the accept-then-close scenario. -/
def fsAcceptClose : FS :=
  { rootEntries := some ["srv-a"],
    statRoot := fun f => if f == "srv-a" then some true else none,
    readDeviceDir := fun f => if f == "srv-a" then some ["auth.log"] else none,
    statFile := fun f n =>
      if f == "srv-a" && n == "auth.log" then some ⟨true, 10, 0⟩ else none,
    readFile := fun f n =>
      if f == "srv-a" && n == "auth.log" then
        some (acceptLine ++ "\n" ++ closeLine)
      else none }

/-- Filesystem for the stale-open-session scenario: the accept line only,
never closed. -/
def fsAcceptOnly : FS :=
  { fsAcceptClose with
    readFile := fun f n =>
      if f == "srv-a" && n == "auth.log" then some acceptLine else none }

/-- Three lines, each containing "error". -/
def threeErrorContent : String := "error\nerror\nerror"

/-- Filesystem whose single log file holds `threeErrorContent`. -/
def fsThreeErrors : FS :=
  { fsAcceptClose with
    readFile := fun f n =>
      if f == "srv-a" && n == "auth.log" then some threeErrorContent else none }

/-- The lines `analyzeDeviceLogs` obtains for one file: the split content of
a successful read, nothing for a failed one. -/
def readLines (fs : FS) (f : LogFileDescriptor) : List String :=
  match fs.readFile f.folder f.name with
  | none => []
  | some c => splitLines c

/-- All lines of the device that actually reach the classifier/correlator:
the last `n` lines of each readable file, in file order. -/
def deviceTruncLines (fs : FS) (n : Nat) (device : Device) : List String :=
  (device.logFiles.map (fun f => lastN n (readLines fs f))).flatten

/-- The untruncated line count summed over the device's readable files. -/
def deviceRawLineCount (fs : FS) (device : Device) : Nat :=
  (device.logFiles.map (fun f => (readLines fs f).length)).sum

/-- Wall clock at 0 with a trivial calendar conversion, for concrete
witnesses whose proofs need no time arithmetic. -/
def tmZero : TimeModel := ⟨0, fun _ => 0⟩

/-- Filesystem whose root directory enumeration itself throws. -/
def fsRootThrows : FS := { fsAcceptClose with rootEntries := none }

/-- Filesystem with two device folders, both stat-able as directories, where
the directory of "ghost" cannot be read (its `readdir` throws). -/
def fsDirUnreadable : FS :=
  { fsAcceptClose with
    rootEntries := some ["srv-a", "ghost"],
    statRoot := fun _ => some true }

/-- Filesystem with two device folders where `fs.stat` throws on "bad" (the
scan loop's stat, server.js line 95) while "srv-a" is a fully analysable
directory. -/
def fsStatThrows : FS :=
  { fsAcceptClose with rootEntries := some ["bad", "srv-a"] }

/-- The registry a successful scan builds (empty on a failed scan); lets a
closed witness name the built registry without spelling out the records. -/
def scanRegOrEmpty (tm : TimeModel) (fs : FS) (n : Nat) : List (String × Device) :=
  match scanDevicesBuild tm fs n with
  | Except.ok reg => reg
  | Except.error _ => []

/-! ## Theorems settling the claims -/

/-- C2: for every log line the classifier returns exactly one severity from
{error, warning, info}, chosen by the case-insensitive precedence rule
error-tokens → error, else warn-tokens → warning, else info; the presence of
"info"/"notice" never changes the result away from this rule. -/
theorem c2_extractLogLevel_matches_spec (logLine : String) :
    (extractLogLevel logLine = "error" ∨ extractLogLevel logLine = "warning" ∨
      extractLogLevel logLine = "info") ∧
    extractLogLevel logLine = specLogLevel logLine := by
  unfold extractLogLevel specLogLevel
  constructor
  · cases h1 : (jsIncludes (jsToLower logLine) "error" || jsIncludes (jsToLower logLine) "err" ||
        jsIncludes (jsToLower logLine) "failed" || jsIncludes (jsToLower logLine) "denied") <;>
      cases h2 : (jsIncludes (jsToLower logLine) "warning" || jsIncludes (jsToLower logLine) "warn") <;>
      cases h3 : (jsIncludes (jsToLower logLine) "info" || jsIncludes (jsToLower logLine) "notice") <;>
      simp [h1, h2, h3]
  · cases h1 : (jsIncludes (jsToLower logLine) "error" || jsIncludes (jsToLower logLine) "err" ||
        jsIncludes (jsToLower logLine) "failed" || jsIncludes (jsToLower logLine) "denied") <;>
      cases h2 : (jsIncludes (jsToLower logLine) "warning" || jsIncludes (jsToLower logLine) "warn") <;>
      cases h3 : (jsIncludes (jsToLower logLine) "info" || jsIncludes (jsToLower logLine) "notice") <;>
      simp [h1, h2, h3]

set_option maxRecDepth 100000 in
/-- C1: an analysis pass's active-session output contains exactly the
correlated records whose final status is `active` and whose start time is
strictly within one hour before the analysis time; concretely, an accepted
login followed by a session-closed line with the same bracketed id yields no
active session for any analysis time, and an unclosed login whose start time
is at least one hour old is excluded as well. -/
theorem c1_active_sessions_exact (tm : TimeModel) (fs : FS) (maxLogLines : Nat)
    (device : Device) :
    (∀ s : Session,
      s ∈ (analyzeDeviceLogs tm fs maxLogLines device).activeSessions ↔
        s ∈ (finalSessions tm fs maxLogLines device).map Prod.snd ∧
          s.status = "active" ∧ ∃ t, s.startTime = some t ∧ tm.now - t < 3600000) ∧
    (analyzeDeviceLogs tm fsAcceptClose 1000 sampleDevice).activeSessions = [] ∧
    (tm.calToMillis (CalDate.syslog 1 12 3 4 5) + 3600000 ≤ tm.now →
      (analyzeDeviceLogs tm fsAcceptOnly 1000 sampleDevice).activeSessions = []) := by
  refine ⟨?_, rfl, ?_⟩
  · intro s
    show s ∈ List.filter _
        ((analyzeLogsFold tm fs maxLogLines device).2.sessions.map Prod.snd) ↔ _
    rw [List.mem_filter]
    unfold finalSessions
    constructor
    · rintro ⟨hmem, hp⟩
      rw [Bool.and_eq_true, beq_iff_eq] at hp
      obtain ⟨hst, hgt⟩ := hp
      cases hts : s.startTime with
      | none => rw [hts] at hgt; exact absurd hgt (by simp [jsDateGt])
      | some t =>
        refine ⟨hmem, hst, t, rfl, ?_⟩
        rw [hts] at hgt; simp only [jsDateGt, decide_eq_true_eq] at hgt; omega
    · rintro ⟨hmem, hst, t, hts, hlt⟩
      refine ⟨hmem, ?_⟩
      rw [Bool.and_eq_true, beq_iff_eq]
      refine ⟨hst, ?_⟩
      rw [hts]; simp only [jsDateGt, decide_eq_true_eq]; omega
  · intro h
    have hred : (analyzeDeviceLogs tm fsAcceptOnly 1000 sampleDevice).activeSessions =
        List.filter (fun s => s.status == "active" && jsDateGt s.startTime (tm.now - 3600000))
          [{ id := "1234", username := "admin", sourceIP := "192.168.1.100",
             startTime := some (tm.calToMillis (CalDate.syslog 1 12 3 4 5)),
             status := "active", endTime := none, device := "srv-a" }] := rfl
    have hgt : jsDateGt (some (tm.calToMillis (CalDate.syslog 1 12 3 4 5)))
        (tm.now - 3600000) = false := by
      simp only [jsDateGt, decide_eq_false_iff_not]
      omega
    rw [hred, List.filter_cons, hgt]
    simp

/-- Witness for C1 at a concrete analysis time two hours after the (modelled)
parsed start time: the unclosed session is excluded. -/
theorem c1_witness :
    (analyzeDeviceLogs ⟨7200000, fun _ => 0⟩ fsAcceptOnly 1000 sampleDevice).activeSessions = [] :=
  (c1_active_sessions_exact ⟨7200000, fun _ => 0⟩ fsAcceptOnly 1000 sampleDevice).2.2
    (by norm_num)

/-- The file fold of `analyzeDeviceLogs` splits into the untruncated line sum
and a single line fold over the concatenated truncated lines. -/
lemma analyzeFold_spec (tm : TimeModel) (fs : FS) (n : Nat) (deviceId : String)
    (files : List LogFileDescriptor) :
    ∀ acc : Nat × CorrState,
      files.foldl (fun acc f => processFile tm n deviceId acc (fs.readFile f.folder f.name)) acc =
        (acc.1 + ((files.map (fun f => (readLines fs f).length)).sum),
         List.foldl (processLine tm deviceId) acc.2
           ((files.map (fun f => lastN n (readLines fs f))).flatten)) := by
  induction files with
  | nil => intro acc; simp
  | cons f rest ih =>
    intro acc
    rw [List.foldl_cons]
    cases hr : fs.readFile f.folder f.name with
    | none =>
      have hstep : processFile tm n deviceId acc none = acc := rfl
      rw [hstep, ih]
      simp [readLines, hr, lastN]
    | some c =>
      have hstep : processFile tm n deviceId acc (some c) =
          (acc.1 + (splitLines c).length,
           (lastN n (splitLines c)).foldl (processLine tm deviceId) acc.2) := rfl
      rw [hstep, ih]
      simp [readLines, hr, List.foldl_append, Nat.add_assoc]

/-- C3 counterexample: with `maxLogLines = 2` and a single 3-line file
"error\nerror\nerror", only the last 2 lines are classified (errorCount = 2),
yet the total-lines statistic is 3 — the full pre-truncation split length,
not the number of lines processed. -/
theorem c3_counterexample :
    (analyzeDeviceLogs ⟨0, fun _ => 0⟩ fsThreeErrors 2 sampleDevice).stats.totalLogs = 3 ∧
    (lastN 2 (splitLines threeErrorContent)).length = 2 ∧
    (analyzeDeviceLogs ⟨0, fun _ => 0⟩ fsThreeErrors 2 sampleDevice).stats.errorCount = 2 :=
  ⟨rfl, rfl, rfl⟩

/-- C3 (amended): the error, warning, ssh-connection and failed-login
statistics are computed from exactly the last `maxLogLines` lines of each of
the device's readable files, accumulated across files without reset (a single
fold over the concatenation); the total-lines statistic, however, counts every
line of each readable file before truncation. -/
theorem c3_stats_truncation (tm : TimeModel) (fs : FS) (n : Nat) (device : Device) :
    (analyzeDeviceLogs tm fs n device).stats.totalLogs = deviceRawLineCount fs device ∧
    (analyzeDeviceLogs tm fs n device).stats.errorCount =
      (List.foldl (processLine tm device.id) CorrState.init (deviceTruncLines fs n device)).errorCount ∧
    (analyzeDeviceLogs tm fs n device).stats.warningCount =
      (List.foldl (processLine tm device.id) CorrState.init (deviceTruncLines fs n device)).warningCount ∧
    (analyzeDeviceLogs tm fs n device).stats.sshConnections =
      (List.foldl (processLine tm device.id) CorrState.init (deviceTruncLines fs n device)).sshConnections ∧
    (analyzeDeviceLogs tm fs n device).stats.failedLogins =
      (List.foldl (processLine tm device.id) CorrState.init (deviceTruncLines fs n device)).failedLogins := by
  unfold analyzeDeviceLogs analyzeLogsFold deviceTruncLines deviceRawLineCount
  rw [analyzeFold_spec]
  simp

/-- C8: a device snapshot's status is online iff last-seen is less than 1 hour
old, warning iff between 1 and 24 hours old, and offline otherwise — including
whenever last-seen is unset. -/
theorem c8_determineDeviceStatus_thresholds (now : Int) (lastSeen : Option Int) :
    (determineDeviceStatus now lastSeen = "online" ↔
      ∃ t, lastSeen = some t ∧ now - t < 3600000) ∧
    (determineDeviceStatus now lastSeen = "warning" ↔
      ∃ t, lastSeen = some t ∧ 3600000 ≤ now - t ∧ now - t < 86400000) ∧
    (determineDeviceStatus now lastSeen = "offline" ↔
      (lastSeen = none ∨ ∃ t, lastSeen = some t ∧ 86400000 ≤ now - t)) := by
  have hoo : ("offline" : String) ≠ "online" := by decide
  have how : ("offline" : String) ≠ "warning" := by decide
  have hnw : ("online" : String) ≠ "warning" := by decide
  have hno : ("online" : String) ≠ "offline" := by decide
  have hwo : ("warning" : String) ≠ "offline" := by decide
  have hwn : ("warning" : String) ≠ "online" := by decide
  cases lastSeen with
  | none =>
    refine ⟨?_, ?_, ?_⟩ <;> simp [determineDeviceStatus, hoo, how]
  | some t =>
    simp only [determineDeviceStatus]
    by_cases ha : now - t < 3600000
    · rw [if_pos ha]
      refine ⟨?_, ?_, ?_⟩
      · simp only [Option.some.injEq]
        exact ⟨fun _ => ⟨t, rfl, ha⟩, fun _ => by trivial⟩
      · simp only [Option.some.injEq]
        constructor
        · intro h; exact absurd h hnw
        · rintro ⟨t', rfl, h1, _⟩; omega
      · simp only [Option.some.injEq]
        constructor
        · intro h; exact absurd h hno
        · rintro (h | ⟨t', rfl, h1⟩)
          · exact absurd h (by simp)
          · omega
    · rw [if_neg ha]
      by_cases hb : now - t < 86400000
      · rw [if_pos hb]
        refine ⟨?_, ?_, ?_⟩
        · constructor
          · intro h; exact absurd h hwn
          · rintro ⟨t', ht, h1⟩
            rw [Option.some.injEq] at ht; subst ht; omega
        · exact ⟨fun _ => ⟨t, rfl, by omega, hb⟩, fun _ => rfl⟩
        · constructor
          · intro h; exact absurd h hwo
          · rintro (h | ⟨t', ht, h1⟩)
            · exact absurd h (by simp)
            · rw [Option.some.injEq] at ht; subst ht; omega
      · rw [if_neg hb]
        refine ⟨?_, ?_, ?_⟩
        · constructor
          · intro h; exact absurd h hoo
          · rintro ⟨t', ht, h1⟩
            rw [Option.some.injEq] at ht; subst ht; omega
        · constructor
          · intro h; exact absurd h how
          · rintro ⟨t', ht, h1, h2⟩
            rw [Option.some.injEq] at ht; subst ht; omega
        · exact ⟨fun _ => Or.inr ⟨t, rfl, by omega⟩, fun _ => rfl⟩

/-- Witness for C8 at a concrete input: last-seen two hours old is warning. -/
theorem c8_witness : determineDeviceStatus 7200000 (some 0) = "warning" :=
  ((c8_determineDeviceStatus_thresholds 7200000 (some 0)).2.1).mpr
    ⟨0, rfl, by norm_num, by norm_num⟩

/-- C9 counterexample: the line "Xyz 12 99:99:99 sshd session" matches the
syslog-style pattern, moment fails to parse the matched text ("Xyz" is no
month, hour 99 is out of range), and the function returns an invalid date —
not the current wall-clock time 555 as the claim states. -/
theorem c9_counterexample :
    matchSyslogTs "Xyz 12 99:99:99 sshd session" ≠ none ∧
    extractTimestamp ⟨555, fun _ => 777⟩ "Xyz 12 99:99:99 sshd session" ≠ some 555 ∧
    extractTimestamp ⟨555, fun _ => 777⟩ "Xyz 12 99:99:99 sshd session" = none :=
  ⟨by decide, by decide, rfl⟩

/-- C9 (amended): timestamp extraction tries the syslog-style and ISO-style
anchored patterns; on no match it returns the current wall-clock time; on a
match it returns the moment parse of the matched text unconditionally, so a
parse failure of matched text yields an invalid date rather than the current
time.  The concrete conjuncts evaluate both formats end to end. -/
theorem c9_extractTimestamp_amended (tm : TimeModel) (line : String) :
    (matchSyslogTs line = none → matchIsoTs line = none →
      extractTimestamp tm line = some tm.now) ∧
    (∀ s, matchSyslogTs line = some s →
      extractTimestamp tm line = momentParse tm s) ∧
    (∀ s, matchSyslogTs line = none → matchIsoTs line = some s →
      extractTimestamp tm line = momentParse tm s) ∧
    extractTimestamp tm "Jan 12 03:04:05 host sshd[1234]: msg" =
      some (tm.calToMillis (CalDate.syslog 1 12 3 4 5)) ∧
    extractTimestamp tm "2021-02-03 04:05:06 host msg" =
      some (tm.calToMillis (CalDate.iso 2021 2 3 4 5 6)) := by
  refine ⟨?_, ?_, ?_, rfl, rfl⟩
  · intro h1 h2; unfold extractTimestamp; rw [h1, h2]
  · intro s h; unfold extractTimestamp; rw [h]
  · intro s h1 h2; unfold extractTimestamp; rw [h1, h2]

/-- Witness for C9's amended theorem: a line with no leading timestamp falls
back to the current wall-clock time. -/
theorem c9_witness :
    extractTimestamp ⟨901, fun _ => 0⟩ "plain message" = some 901 :=
  (c9_extractTimestamp_amended ⟨901, fun _ => 0⟩ "plain message").1 rfl rfl

/-- JS `Map.get` after `Map.set` of the same key. -/
lemma mapGet_mapSet_self {α : Type} (m : List (String × α)) (k : String) (v : α) :
    mapGet (mapSet m k v) k = some v := by
  induction m with
  | nil => simp [mapSet, mapGet]
  | cons p t ih =>
    obtain ⟨k', v'⟩ := p
    by_cases h : k' = k
    · simp [mapSet, mapGet, h]
    · simp [mapSet, mapGet, h, ih]

/-- JS `Map.get` after `Map.set` of a different key. -/
lemma mapGet_mapSet_ne {α : Type} (m : List (String × α)) (k k' : String) (v : α)
    (h : k' ≠ k) : mapGet (mapSet m k v) k' = mapGet m k' := by
  induction m with
  | nil =>
    simp only [mapSet, mapGet, beq_iff_eq]
    rw [if_neg (fun hh => h hh.symm)]
  | cons p t ih =>
    obtain ⟨k0, v0⟩ := p
    by_cases h0 : k0 = k
    · subst h0
      have hs : mapSet ((k0, v0) :: t) k0 v = (k0, v) :: t := by simp [mapSet]
      rw [hs]
      simp only [mapGet, beq_iff_eq]
      rw [if_neg (fun hh => h hh.symm), if_neg (fun hh => h hh.symm)]
    · have hs : mapSet ((k0, v0) :: t) k v = (k0, v0) :: mapSet t k v := by
        simp [mapSet, h0]
      rw [hs]
      simp only [mapGet, beq_iff_eq]
      by_cases h1 : k0 = k'
      · rw [if_pos h1, if_pos h1]
      · rw [if_neg h1, if_neg h1]
        exact ih

/-- `Map.set` on a key already present keeps the key sequence unchanged. -/
lemma mapSet_keys_of_mem {α : Type} (m : List (String × α)) (k : String) (v v' : α)
    (h : mapGet m k = some v') :
    (mapSet m k v).map Prod.fst = m.map Prod.fst := by
  induction m with
  | nil => simp [mapGet] at h
  | cons p t ih =>
    obtain ⟨k0, v0⟩ := p
    by_cases h0 : k0 = k
    · simp [mapSet, h0]
    · simp only [mapGet, beq_iff_eq, h0, if_false] at h
      simp [mapSet, h0, ih h]

/-- C7: a file-change notification for an unknown device id leaves the
registry entirely unchanged; for a known device only its statistics and
active-session list are replaced — id, name, ip, status, lastSeen and
logFiles stay, every other entry is untouched, and the key sequence of the
registry (hence its size and order) never changes, so the incremental path
never deletes an entry. -/
theorem c7_incremental_frame (tm : TimeModel) (fs : FS) (n : Nat)
    (cache : List (String × Device)) (segs : List String) :
    (mapGet cache (segs.headD "") = none →
      handleFileChange tm fs n cache segs = cache) ∧
    (∀ d, mapGet cache (segs.headD "") = some d →
      ((∀ k, k ≠ segs.headD "" →
          mapGet (handleFileChange tm fs n cache segs) k = mapGet cache k) ∧
        mapGet (handleFileChange tm fs n cache segs) (segs.headD "") =
          some (analyzeDeviceLogs tm fs n d) ∧
        (analyzeDeviceLogs tm fs n d).id = d.id ∧
        (analyzeDeviceLogs tm fs n d).name = d.name ∧
        (analyzeDeviceLogs tm fs n d).ip = d.ip ∧
        (analyzeDeviceLogs tm fs n d).status = d.status ∧
        (analyzeDeviceLogs tm fs n d).lastSeen = d.lastSeen ∧
        (analyzeDeviceLogs tm fs n d).logFiles = d.logFiles)) ∧
    (handleFileChange tm fs n cache segs).map Prod.fst = cache.map Prod.fst := by
  refine ⟨?_, ?_, ?_⟩
  · intro h
    simp only [handleFileChange, h]
  · intro d h
    simp only [handleFileChange, h]
    exact ⟨fun k hk => mapGet_mapSet_ne _ _ _ _ hk,
      mapGet_mapSet_self _ _ _, rfl, rfl, rfl, rfl, rfl, rfl⟩
  · cases h : mapGet cache (segs.headD "") with
    | none =>
      simp only [handleFileChange, h]
    | some d =>
      simp only [handleFileChange, h]
      exact mapSet_keys_of_mem _ _ _ _ h

/-- Witness for C7: a change under an unknown first path segment is a
registry no-op. -/
theorem c7_witness :
    handleFileChange tmZero fsAcceptClose 1000 [("srv-a", sampleDevice)]
      ["ghost", "auth.log"] = [("srv-a", sampleDevice)] :=
  (c7_incremental_frame tmZero fsAcceptClose 1000 [("srv-a", sampleDevice)]
    ["ghost", "auth.log"]).1 rfl

/-- C6: the manual refresh endpoint answers scan-in-progress exactly when the
guard flag is set at request time, in which case the scanner state (registry
included) is untouched; otherwise the full scan runs and its device list is
returned; and a scan always ends — success or failure — with the flag back at
not-scanning. -/
theorem c6_refresh_guard (tm : TimeModel) (fs : FS) (n : Nat) (st : ScannerState) :
    ((refreshRoute tm fs n st).1 = RefreshResponse.scanInProgress ↔ st.isScanning = true) ∧
    (st.isScanning = true → refreshRoute tm fs n st = (RefreshResponse.scanInProgress, st)) ∧
    (st.isScanning = false →
      (refreshRoute tm fs n st).2 = (scanDevices tm fs n st).2 ∧
      (∀ ds, (scanDevices tm fs n st).1 = Except.ok ds →
        (refreshRoute tm fs n st).1 = RefreshResponse.ok ds)) ∧
    (scanDevices tm fs n st).2.isScanning = false := by
  refine ⟨?_, ?_, ?_, ?_⟩
  · by_cases hs : st.isScanning
    · simp [refreshRoute, hs]
    · simp only [refreshRoute, hs, if_false, Bool.false_eq_true, iff_false]
      cases h1 : (scanDevices tm fs n st).1 <;> simp
  · intro hs
    simp [refreshRoute, hs]
  · intro hs
    constructor
    · simp only [refreshRoute, hs, if_false]
      cases h1 : (scanDevices tm fs n st).1 <;> simp
    · intro ds h1
      simp [refreshRoute, hs, h1]
  · unfold scanDevices
    cases h : scanDevicesBuild tm fs n <;> rfl

/-- Witness for C6: a request arriving while the flag is set is rejected
with the state unchanged. -/
theorem c6_witness :
    refreshRoute tmZero fsAcceptClose 1000 ⟨true, [("srv-a", sampleDevice)]⟩ =
      (RefreshResponse.scanInProgress, ⟨true, [("srv-a", sampleDevice)]⟩) :=
  (c6_refresh_guard tmZero fsAcceptClose 1000 ⟨true, [("srv-a", sampleDevice)]⟩).2.1 rfl

/-- C10: a scan that fails before the new device map is complete leaves the
registry exactly as it was (the new map is swapped in only after the folder
loop finishes), rethrows the error, and still resets the scanning flag. -/
theorem c10_failed_scan_keeps_registry (tm : TimeModel) (fs : FS) (n : Nat)
    (st : ScannerState) (e : Unit) :
    scanDevicesBuild tm fs n = Except.error e →
    (scanDevices tm fs n st).1 = Except.error e ∧
    (scanDevices tm fs n st).2.deviceCache = st.deviceCache ∧
    (scanDevices tm fs n st).2.isScanning = false := by
  intro h
  unfold scanDevices
  rw [h]
  exact ⟨rfl, rfl, rfl⟩

/-- Witness for C10: a root enumeration failure preserves the prior registry
and clears the flag. -/
theorem c10_witness :
    (scanDevices tmZero fsRootThrows 1000 ⟨true, [("srv-a", sampleDevice)]⟩).2.deviceCache =
        [("srv-a", sampleDevice)] ∧
    (scanDevices tmZero fsRootThrows 1000 ⟨true, [("srv-a", sampleDevice)]⟩).2.isScanning = false := by
  have h := c10_failed_scan_keeps_registry tmZero fsRootThrows 1000
    ⟨true, [("srv-a", sampleDevice)]⟩ () rfl
  exact ⟨h.2.1, h.2.2⟩

/-- A successfully analysed device keeps its folder name as id. -/
lemma analyzeDevice_id (tm : TimeModel) (fs : FS) (n : Nat) (f : String) (d : Device)
    (h : analyzeDevice tm fs n f = some d) : d.id = f := by
  unfold analyzeDevice at h
  cases h1 : fs.readDeviceDir f with
  | none => rw [h1] at h; exact absurd h (by simp)
  | some files =>
    rw [h1] at h
    simp only [] at h
    cases h2 : buildLogFiles fs f files [] none with
    | none => rw [h2] at h; exact absurd h (by simp)
    | some p =>
      obtain ⟨lf, ls⟩ := p
      rw [h2] at h
      simp only [] at h
      rw [Option.some.injEq] at h
      subst h
      rfl

/-- Registry lookup after the scan's folder loop, relative to the loop's
accumulator: a key is freshly bound exactly when its folder was enumerated,
stat-ed as a directory, and analysed successfully. -/
lemma scanFold_lookup (tm : TimeModel) (fs : FS) (n : Nat) :
    ∀ (folders : List String) (acc res : List (String × Device)),
      scanFold tm fs n folders acc = Except.ok res →
      ∀ k, mapGet res k =
        if k ∈ folders ∧ fs.statRoot k = some true ∧
            (analyzeDevice tm fs n k).isSome = true
        then analyzeDevice tm fs n k
        else mapGet acc k := by
  intro folders
  induction folders with
  | nil =>
    intro acc res h k
    unfold scanFold at h
    rw [Except.ok.injEq] at h
    subst h
    rw [if_neg]
    rintro ⟨hk, -, -⟩
    simp at hk
  | cons folder rest ih =>
    intro acc res h k
    unfold scanFold at h
    cases h1 : fs.statRoot folder with
    | none => rw [h1] at h; exact absurd h (by simp)
    | some isDir =>
      rw [h1] at h
      cases isDir with
      | false =>
        simp only [Bool.false_eq_true, if_false] at h
        rw [ih acc res h k]
        by_cases hc : k ∈ rest ∧ fs.statRoot k = some true ∧
            (analyzeDevice tm fs n k).isSome = true
        · rw [if_pos hc, if_pos ⟨List.mem_cons_of_mem _ hc.1, hc.2⟩]
        · rw [if_neg hc, if_neg]
          rintro ⟨hm, hs2, hsome⟩
          rcases List.mem_cons.mp hm with hk0 | hk0
          · subst hk0; rw [h1] at hs2; simp at hs2
          · exact hc ⟨hk0, hs2, hsome⟩
      | true =>
        simp only [if_true] at h
        cases h2 : analyzeDevice tm fs n folder with
        | none =>
          rw [h2] at h
          simp only [] at h
          rw [ih acc res h k]
          by_cases hc : k ∈ rest ∧ fs.statRoot k = some true ∧
              (analyzeDevice tm fs n k).isSome = true
          · rw [if_pos hc, if_pos ⟨List.mem_cons_of_mem _ hc.1, hc.2⟩]
          · rw [if_neg hc, if_neg]
            rintro ⟨hm, hs2, hsome⟩
            rcases List.mem_cons.mp hm with hk0 | hk0
            · subst hk0; rw [h2] at hsome; simp at hsome
            · exact hc ⟨hk0, hs2, hsome⟩
        | some device =>
          rw [h2] at h
          simp only [] at h
          have hid : device.id = folder := analyzeDevice_id tm fs n folder device h2
          rw [hid] at h
          rw [ih _ res h k]
          by_cases hc : k ∈ rest ∧ fs.statRoot k = some true ∧
              (analyzeDevice tm fs n k).isSome = true
          · rw [if_pos hc, if_pos ⟨List.mem_cons_of_mem _ hc.1, hc.2⟩]
          · rw [if_neg hc]
            by_cases hk : k = folder
            · subst hk
              rw [mapGet_mapSet_self, if_pos ⟨List.mem_cons_self _ _, h1, by rw [h2]; rfl⟩]
              exact h2.symm
            · rw [mapGet_mapSet_ne _ _ _ _ hk, if_neg]
              rintro ⟨hm, hs2, hsome⟩
              rcases List.mem_cons.mp hm with hk0 | hk0
              · exact hk hk0
              · exact hc ⟨hk0, hs2, hsome⟩

/-- Registry lookup for a completed scan: exactly the successfully analysed
directory entries, each bound to its fresh `analyzeDevice` snapshot. -/
lemma scanBuild_lookup (tm : TimeModel) (fs : FS) (n : Nat)
    (folders : List String) (reg : List (String × Device))
    (hroot : fs.rootEntries = some folders)
    (h : scanDevicesBuild tm fs n = Except.ok reg) :
    ∀ k, mapGet reg k =
      if k ∈ folders ∧ fs.statRoot k = some true
      then analyzeDevice tm fs n k
      else none := by
  intro k
  unfold scanDevicesBuild at h
  rw [hroot] at h
  rw [scanFold_lookup tm fs n folders [] reg h k]
  by_cases hc : k ∈ folders ∧ fs.statRoot k = some true
  · by_cases hsome : (analyzeDevice tm fs n k).isSome = true
    · rw [if_pos ⟨hc.1, hc.2, hsome⟩, if_pos hc]
    · rw [if_neg (fun hcc => hsome hcc.2.2), if_pos hc]
      cases ha : analyzeDevice tm fs n k with
      | none => rfl
      | some d => rw [ha] at hsome; simp at hsome
  · rw [if_neg (fun hcc => hc ⟨hcc.1, hcc.2.1⟩), if_neg hc]
    rfl

/-- C4: a successful full scan replaces the registry with a map built from
that scan alone — the result is independent of the prior scanner state, a key
is present iff its directory was enumerated, stat-ed as a directory and
analysed successfully, and its entry is the freshly built `analyzeDevice`
snapshot, never a merge with a prior entry. -/
theorem c4_scan_replaces_registry (tm : TimeModel) (fs : FS) (n : Nat)
    (st st' : ScannerState) (folders : List String) (reg : List (String × Device)) :
    fs.rootEntries = some folders →
    scanDevicesBuild tm fs n = Except.ok reg →
    (scanDevices tm fs n st).2.deviceCache = reg ∧
    (scanDevices tm fs n st).2.deviceCache = (scanDevices tm fs n st').2.deviceCache ∧
    (∀ k, mapGet reg k =
      if k ∈ folders ∧ fs.statRoot k = some true
      then analyzeDevice tm fs n k
      else none) := by
  intro hroot hok
  refine ⟨?_, ?_, scanBuild_lookup tm fs n folders reg hroot hok⟩
  · unfold scanDevices
    rw [hok]
  · unfold scanDevices
    rw [hok]

/-- Witness for C4: a concrete scan over one directory, started from two
different prior states, yields the same freshly built registry. -/
theorem c4_witness :
    (scanDevices tmZero fsAcceptClose 1000 ⟨false, [("old", sampleDevice)]⟩).2.deviceCache =
        scanRegOrEmpty tmZero fsAcceptClose 1000 ∧
    (scanDevices tmZero fsAcceptClose 1000 ⟨false, [("old", sampleDevice)]⟩).2.deviceCache =
      (scanDevices tmZero fsAcceptClose 1000 ⟨false, []⟩).2.deviceCache ∧
    (∀ k, mapGet (scanRegOrEmpty tmZero fsAcceptClose 1000) k =
      if k ∈ ["srv-a"] ∧ fsAcceptClose.statRoot k = some true
      then analyzeDevice tmZero fsAcceptClose 1000 k
      else none) :=
  c4_scan_replaces_registry tmZero fsAcceptClose 1000 ⟨false, [("old", sampleDevice)]⟩
    ⟨false, []⟩ ["srv-a"] (scanRegOrEmpty tmZero fsAcceptClose 1000) rfl rfl

/-- C5 counterexample: with folders "bad" and "srv-a", where stat-ing "bad"
throws while "srv-a" is fully analysable, the whole scan fails — no snapshot
is produced for "srv-a" and the scan result is the rethrown error,
contradicting the claim that a per-device stat failure only omits that device
and never makes the overall scan fail. -/
theorem c5_counterexample :
    fsStatThrows.statRoot "bad" = none ∧
    fsStatThrows.statRoot "srv-a" = some true ∧
    (analyzeDevice tmZero fsStatThrows 1000 "srv-a").isSome = true ∧
    scanDevicesBuild tmZero fsStatThrows 1000 = Except.error () ∧
    (scanDevices tmZero fsStatThrows 1000 ⟨false, []⟩).1 = Except.error () :=
  ⟨rfl, rfl, rfl, rfl, rfl⟩

/-- C5 (amended): when the scan-loop stats of all enumerated folders succeed,
the scan completes, and any failure inside a single device's analysis — its
directory read or a file stat throwing — only omits that device while every
other directory still gets its snapshot; a failure of the scan-loop stat
itself, however, aborts the whole scan (see the counterexample). -/
theorem c5_per_device_isolation (tm : TimeModel) (fs : FS) (n : Nat)
    (folders : List String) :
    fs.rootEntries = some folders →
    (∀ f ∈ folders, fs.statRoot f ≠ none) →
    ∃ reg, scanDevicesBuild tm fs n = Except.ok reg ∧
      ∀ k, mapGet reg k =
        if k ∈ folders ∧ fs.statRoot k = some true
        then analyzeDevice tm fs n k
        else none := by
  intro hroot hstat
  have hok : ∀ (fl : List String) (acc : List (String × Device)),
      (∀ f ∈ fl, fs.statRoot f ≠ none) →
      ∃ res, scanFold tm fs n fl acc = Except.ok res := by
    intro fl
    induction fl with
    | nil => intro acc _; exact ⟨acc, rfl⟩
    | cons folder rest ih =>
      intro acc hst
      unfold scanFold
      cases h1 : fs.statRoot folder with
      | none => exact absurd h1 (hst folder (List.mem_cons_self _ _))
      | some isDir =>
        cases isDir with
        | false =>
          simpa using ih acc (fun f hf => hst f (List.mem_cons_of_mem _ hf))
        | true =>
          cases h2 : analyzeDevice tm fs n folder with
          | none => simpa using ih acc (fun f hf => hst f (List.mem_cons_of_mem _ hf))
          | some device =>
            simpa using ih (mapSet acc device.id device)
              (fun f hf => hst f (List.mem_cons_of_mem _ hf))
  obtain ⟨reg, hreg⟩ := hok folders [] hstat
  have hbuild : scanDevicesBuild tm fs n = Except.ok reg := by
    unfold scanDevicesBuild
    rw [hroot]
    exact hreg
  exact ⟨reg, hbuild, scanBuild_lookup tm fs n folders reg hroot hbuild⟩

/-- Witness for C5's amended theorem: "ghost" has an unreadable directory,
yet the scan completes and characterises every key. -/
theorem c5_witness :
    ∃ reg, scanDevicesBuild tmZero fsDirUnreadable 1000 = Except.ok reg ∧
      ∀ k, mapGet reg k =
        if k ∈ ["srv-a", "ghost"] ∧ fsDirUnreadable.statRoot k = some true
        then analyzeDevice tmZero fsDirUnreadable 1000 k
        else none :=
  c5_per_device_isolation tmZero fsDirUnreadable 1000 ["srv-a", "ghost"] rfl
    (fun f _ => by rw [show fsDirUnreadable.statRoot f = some true from rfl]; simp)

end SshDashboard
